import Mathlib

/-!
Verification of the bill-normalization and savings-estimation engine of the
veriplan-quotient repository (the hook in src/unnamed/part_001:
`enhanceBillData`, `calculateChargesByCategory`, `calculateCarrierSavings`).

Modelling conventions:
* JavaScript numbers are modelled as `ℚ` (all constants in the source are
  exact decimals).  A value that may be `undefined` — or that may be the
  `NaN` produced by arithmetic on `undefined` — is modelled as `Option ℚ`,
  with `none` standing for "not a (defined) number".
* `x || d` on numbers is `jsOrQ` (JS treats `0` as falsy), on strings
  `jsOrStr` (JS treats `""` as falsy); objects and arrays are always truthy.
* The raw record's `phoneLines` is modelled as `Option (List PhoneLine)`:
  the only call site (`handleFileChange`) validates
  `Array.isArray(data.phoneLines)` before calling `enhanceBillData`, so a
  truthy non-array value cannot occur there.
* The React `ocrProvider` state read by `enhanceBillData` is passed as an
  explicit `ocrState` argument.
* `findBestCarrierMatch` and `alternativeCarrierPlans` are imported from
  `@/config/alternativeCarriers`, a file that is not part of the sources
  here; `calculateCarrierSavings` is therefore parameterized by a
  `CarrierConfig` supplying them.
-/

/-- JS `x || d` for an optional number: `undefined` and `0` fall back to `d`. -/
def jsOrQ (x : Option ℚ) (d : ℚ) : ℚ :=
  match x with
  | none => d
  | some q => if q = 0 then d else q

/-- JS `x || d` for an optional string: `undefined` and `""` fall back to `d`. -/
def jsOrStr (x : Option String) (d : String) : String :=
  match x with
  | none => d
  | some s => if s = "" then d else s

/-- JS truthiness of an optional string (`undefined` and `""` are falsy). -/
def jsTruthyStr (x : Option String) : Bool :=
  match x with
  | none => false
  | some s => !(s == "")

/-- Whether `p` is a prefix of `l` (character lists). -/
def charsHavePrefix : List Char → List Char → Bool
  | [], _ => true
  | _ :: _, [] => false
  | a :: as, b :: bs => a == b && charsHavePrefix as bs

/-- Whether `p` occurs as a contiguous run inside `l`. -/
def charsContain (p : List Char) : List Char → Bool
  | [] => charsHavePrefix p []
  | b :: bs => charsHavePrefix p (b :: bs) || charsContain p bs

/-- JS `s.includes(sub)`: substring containment. -/
def strIncludes (s sub : String) : Bool :=
  charsContain sub.toList s.toList

/-- JS `.map((x, index) => f index x)` over a list, carrying the index. -/
def mapWithIndex (f : ℕ → α → α) : ℕ → List α → List α
  | _, [] => []
  | i, x :: xs => f i x :: mapWithIndex f (i + 1) xs

/-- Per-line charge details (interface `BillLineDetails`); every sub-field
is optional in the raw data. -/
structure BillLineDetails where
  planCost : Option ℚ := none
  planDiscount : Option ℚ := none
  devicePayment : Option ℚ := none
  deviceCredit : Option ℚ := none
  protection : Option ℚ := none
  perks : Option ℚ := none
  perksDiscount : Option ℚ := none
  surcharges : Option ℚ := none
  taxes : Option ℚ := none
deriving DecidableEq

/-- One phone line of a bill (interface `PhoneLine`, plus the `ownerName`
field used by `enhanceBillData`). -/
structure PhoneLine where
  phoneNumber : Option String := none
  deviceName : Option String := none
  ownerName : Option String := none
  planName : Option String := none
  monthlyTotal : Option ℚ := none
  details : Option BillLineDetails := none
deriving DecidableEq

/-- Raw category totals under the legacy keys `plans/devices/services/taxes`. -/
structure RawCharges where
  plans : Option ℚ := none
  devices : Option ℚ := none
  services : Option ℚ := none
  taxes : Option ℚ := none
deriving DecidableEq

/-- The canonical category map: keys "Plan Charges", "Device Payments",
"Services & Add-ons", "Taxes & Fees". -/
structure ChargeCategories where
  planCharges : ℚ
  devicePayments : ℚ
  servicesAddons : ℚ
  taxesFees : ℚ
deriving DecidableEq

/-- A potential-savings line item. -/
structure PotentialSaving where
  description : String
  estimatedSaving : ℚ
deriving DecidableEq

/-- Usage statistics block. -/
structure UsageAnalysis where
  trend : String
  percentageChange : ℚ
  avg_data_usage_gb : ℚ
  avg_talk_minutes : ℚ
  avg_text_messages : ℚ
deriving DecidableEq

/-- Cost analysis block. -/
structure CostAnalysis where
  averageMonthlyBill : ℚ
  projectedNextBill : ℚ
  unusualCharges : List String
  potentialSavings : List PotentialSaving
deriving DecidableEq

/-- An alternative plan inside the recommendation block.  `monthlyCost` is
`Option ℚ` because the source computes it as `rawData.totalAmount * 0.9`
with no default, which is `NaN` when `totalAmount` is absent. -/
structure AlternativePlan where
  name : String
  monthlyCost : Option ℚ
  pros : List String
  cons : List String
  estimatedSavings : ℚ
deriving DecidableEq

/-- Plan recommendation block. -/
structure PlanRecommendation where
  recommendedPlan : String
  reasons : List String
  estimatedMonthlySavings : ℚ
  confidenceScore : ℚ
  alternativePlans : List AlternativePlan
deriving DecidableEq

/-- Account info sub-object of the raw record. -/
structure AccountInfo where
  customerName : Option String := none
deriving DecidableEq

/-- The raw bill record handed to `enhanceBillData`; any field may be absent. -/
structure RawBillRecord where
  billVersion : Option String := none
  phoneLines : Option (List PhoneLine) := none
  chargesByCategory : Option RawCharges := none
  totalAmount : Option ℚ := none
  accountInfo : Option AccountInfo := none
  usageAnalysis : Option UsageAnalysis := none
  costAnalysis : Option CostAnalysis := none
  planRecommendation : Option PlanRecommendation := none
  ocrProvider : Option String := none
  accountNumber : Option String := none
  billingPeriod : Option String := none
deriving DecidableEq

/-- The normalized analysis object produced by `enhanceBillData`.  Fields
that the source can leave `undefined` (they are only spread from the raw
record, or never assigned) stay `Option`-typed. -/
structure BillAnalysis where
  accountNumber : Option String
  billingPeriod : Option String
  billVersion : Option String
  totalAmount : Option ℚ
  usageAnalysis : UsageAnalysis
  costAnalysis : CostAnalysis
  planRecommendation : PlanRecommendation
  phoneLines : List PhoneLine
  chargesByCategory : Option ChargeCategories
  customerName : Option String
  ocrProvider : String
deriving DecidableEq

/-- The fixed usage-analysis default used by both branches of
`enhanceBillData` (lines 101-107 and 182-188 of part_001). -/
def defaultUsageAnalysis : UsageAnalysis :=
  { trend := "stable"
    percentageChange := 0
    avg_data_usage_gb := 25.4
    avg_talk_minutes := 120
    avg_text_messages := 85 }

/-- The fixed cost-analysis default used by both branches of
`enhanceBillData` (lines 108-116 and 189-197); `t` is `rawData.totalAmount`. -/
def defaultCostAnalysis (t : Option ℚ) : CostAnalysis :=
  { averageMonthlyBill := jsOrQ t 0
    projectedNextBill := jsOrQ t 0 * 1.05
    unusualCharges := []
    potentialSavings :=
      [ { description := "Switch to autopay discount", estimatedSaving := 50.00 },
        { description := "Consolidate streaming services", estimatedSaving := 25.00 } ] }

/-- The fixed plan-recommendation default used by both branches of
`enhanceBillData` (lines 117-135 and 198-216).  Note the alternative plan's
`monthlyCost` is `rawData.totalAmount * 0.9` with no `|| 0` fallback, so it
is `NaN` (here `none`) when `totalAmount` is absent. -/
def defaultPlanRecommendation (t : Option ℚ) : PlanRecommendation :=
  { recommendedPlan := "Unlimited Plus"
    reasons :=
      [ "Better value for multiple lines",
        "Includes premium streaming perks",
        "Higher mobile hotspot data allowance" ]
    estimatedMonthlySavings := 96.95
    confidenceScore := 0.8
    alternativePlans :=
      [ { name := "Unlimited Welcome"
          monthlyCost := t.map (fun q => q * 0.9)
          pros := ["Lower cost", "Unlimited data"]
          cons := ["Fewer premium features", "Lower priority data"]
          estimatedSavings := 64.63 } ] }

/-- The all-zero category map (lines 140-145). -/
def zeroCharges : ChargeCategories :=
  { planCharges := 0, devicePayments := 0, servicesAddons := 0, taxesFees := 0 }

/-- Renaming of legacy raw category keys into the canonical map, each value
defaulted to 0 (lines 147-152 and 239-244). -/
def mapLegacyCharges (rc : RawCharges) : ChargeCategories :=
  { planCharges := jsOrQ rc.plans 0
    devicePayments := jsOrQ rc.devices 0
    servicesAddons := jsOrQ rc.services 0
    taxesFees := jsOrQ rc.taxes 0 }

/-- `rawData.billVersion?.includes("claude-parser") && rawData.phoneLines?.length > 0`
(line 95). -/
def isEnhancedFormat (rawData : RawBillRecord) : Bool :=
  (match rawData.billVersion with
   | some v => strIncludes v "claude-parser"
   | none => false)
  &&
  (match rawData.phoneLines with
   | some l => decide (0 < l.length)
   | none => false)

/-- The single placeholder line inserted when no phone lines are present
(lines 164-177). -/
def placeholderLine (rawData : RawBillRecord) : PhoneLine :=
  { phoneNumber := some "Primary Line"
    deviceName := some "Smartphone"
    ownerName := some (jsOrStr (rawData.accountInfo.bind AccountInfo.customerName) "Primary Owner")
    planName := some "Verizon Plan"
    monthlyTotal := some (jsOrQ rawData.totalAmount 99.99)
    details := some
      { planCost := some (jsOrQ rawData.totalAmount 99.99 * 0.7)
        planDiscount := some 0
        devicePayment := some (jsOrQ rawData.totalAmount 99.99 * 0.2)
        deviceCredit := some 0
        protection := some (jsOrQ rawData.totalAmount 99.99 * 0.1) } }

/-- The two canned example lines of the `enhancedData.phoneLines` emptiness
check (lines 248-269). -/
def exampleLines : List PhoneLine :=
  [ { deviceName := some "iPhone 15"
      phoneNumber := some "555-123-4567"
      planName := some "Unlimited Plus"
      monthlyTotal := some 85
      details := some { planCost := some 90, planDiscount := some 10 } },
    { deviceName := some "iPhone 14"
      phoneNumber := some "555-987-6543"
      planName := some "Unlimited Plus"
      monthlyTotal := some 75
      details := some { planCost := some 80, planDiscount := some 10 } } ]

/-- The per-line owner-name fill of lines 223-231: only a line at index 0
whose `ownerName` is falsy gets `ownerName` set to the account customer name. -/
def ownerFill (customer : Option String) (i : ℕ) (line : PhoneLine) : PhoneLine :=
  if !jsTruthyStr line.ownerName && i == 0 && jsTruthyStr customer then
    { line with ownerName := customer }
  else
    line

/-- JS `arr.length > 8 ? arr.slice(0, 8) : arr` (lines 155-157 and 272-274). -/
def capAtEight (l : List PhoneLine) : List PhoneLine :=
  if 8 < l.length then l.take 8 else l

/-- The already-enhanced branch of `enhanceBillData` (lines 95-160): spread
the raw record, default the analysis blocks only if absent, rename or zero
the category map, and cap the lines at 8. -/
def enhancedFormatResult (rawData : RawBillRecord) : BillAnalysis :=
  { accountNumber := rawData.accountNumber
    billingPeriod := rawData.billingPeriod
    billVersion := rawData.billVersion
    totalAmount := some (jsOrQ rawData.totalAmount 0)
    usageAnalysis := rawData.usageAnalysis.getD defaultUsageAnalysis
    costAnalysis := rawData.costAnalysis.getD (defaultCostAnalysis rawData.totalAmount)
    planRecommendation :=
      rawData.planRecommendation.getD (defaultPlanRecommendation rawData.totalAmount)
    phoneLines := capAtEight ((rawData.phoneLines).getD [])
    chargesByCategory := some
      (match rawData.chargesByCategory with
       | none => zeroCharges
       | some rc => mapLegacyCharges rc)
    customerName := none
    ocrProvider := jsOrStr rawData.ocrProvider "claude" }

/-- The minimal/partial branch of `enhanceBillData` (lines 162-276):
insert a placeholder line if none exist, replace the analysis blocks with
fixed defaults, fill the first line's owner name from `accountInfo`,
rename legacy category keys when present (otherwise the field stays
absent), substitute the canned example lines if the list is still empty
(dead for array-valued raw input), and cap at 8. -/
def minimalFormatResult (rawData : RawBillRecord) (ocrState : Option String) : BillAnalysis :=
  let customer := rawData.accountInfo.bind AccountInfo.customerName
  let lines0 : List PhoneLine :=
    match rawData.phoneLines with
    | none => [placeholderLine rawData]
    | some l => if l.length = 0 then [placeholderLine rawData] else l
  let lines1 : List PhoneLine :=
    if jsTruthyStr customer then mapWithIndex (ownerFill customer) 0 lines0 else lines0
  let lines2 : List PhoneLine := if lines1.length = 0 then exampleLines else lines1
  { accountNumber := rawData.accountNumber
    billingPeriod := rawData.billingPeriod
    billVersion := rawData.billVersion
    totalAmount := rawData.totalAmount
    usageAnalysis := defaultUsageAnalysis
    costAnalysis := defaultCostAnalysis rawData.totalAmount
    planRecommendation := defaultPlanRecommendation rawData.totalAmount
    phoneLines := capAtEight lines2
    chargesByCategory :=
      match rawData.chargesByCategory with
      | some rc => some (mapLegacyCharges rc)
      | none => none
    customerName := if jsTruthyStr customer then customer else none
    ocrProvider := jsOrStr rawData.ocrProvider (jsOrStr ocrState "standard") }

/-- `enhanceBillData` (lines 94-277).  `ocrState` is the React `ocrProvider`
state the source reads at line 217. -/
def enhanceBillData (rawData : RawBillRecord) (ocrState : Option String) : BillAnalysis :=
  if isEnhancedFormat rawData then enhancedFormatResult rawData
  else minimalFormatResult rawData ocrState

/-- One step of the accumulation loop of `calculateChargesByCategory`
(lines 398-406); the accumulator is (planCharges, devicePayments, services). -/
def chargesStep (acc : ℚ × ℚ × ℚ) (line : PhoneLine) : ℚ × ℚ × ℚ :=
  match line.details with
  | some d =>
      (acc.1 + (jsOrQ d.planCost 0 - jsOrQ d.planDiscount 0),
       acc.2.1 + (jsOrQ d.devicePayment 0 - jsOrQ d.deviceCredit 0),
       acc.2.2 + jsOrQ d.protection 0)
  | none => acc

/-- `calculateChargesByCategory` (lines 393-414). -/
def calculateChargesByCategory (phoneLines : List PhoneLine) : ChargeCategories :=
  let acc := phoneLines.foldl chargesStep (0, 0, 0)
  { planCharges := acc.1
    devicePayments := acc.2.1
    servicesAddons := acc.2.2
    taxesFees := (acc.1 + acc.2.1 + acc.2.2) * 0.08 }

/-- A plan of the alternative-carrier catalog; `calculateCarrierSavings`
uses only the `id` and `name` fields. -/
structure CarrierPlan where
  id : String
  name : String
deriving DecidableEq

/-- The data imported from `@/config/alternativeCarriers` (a module not in
the sources here): the fuzzy carrier resolver and the static plan catalog. -/
structure CarrierConfig where
  findBestCarrierMatch : String → String
  alternativeCarrierPlans : List CarrierPlan

/-- The two fields of `billData` that `calculateCarrierSavings` reads
(`billData.totalAmount` and `billData.phoneLines?.length`). -/
structure SavingsInput where
  totalAmount : Option ℚ := none
  phoneLines : Option (List PhoneLine) := none
deriving DecidableEq

/-- The quote returned by `calculateCarrierSavings`.  The savings fields
are `Option ℚ` because `billData.totalAmount - finalPrice` is `NaN` when
`totalAmount` is absent. -/
structure SavingsQuote where
  monthlySavings : Option ℚ
  annualSavings : Option ℚ
  planName : String
  price : ℚ
deriving DecidableEq

/-- The hard-coded `premiumPlans` lookup table (lines 428-432). -/
def premiumPlansLookup (carrierId : String) : Option String :=
  if carrierId = "darkstar" then some "darkstar-premium"
  else if carrierId = "warp" then some "warp-premium"
  else if carrierId = "lightspeed" then some "lightspeed-premium"
  else none

/-- Resolution of a carrier id to a catalog plan (lines 434-436):
`premiumPlans[carrierId] || findBestCarrierMatch(carrierId)`, then a
catalog lookup by plan id. -/
def resolveCarrierPlan (cfg : CarrierConfig) (carrierId : String) : Option CarrierPlan :=
  let matchingPlanId :=
    match premiumPlansLookup carrierId with
    | some pid => pid
    | none => cfg.findBestCarrierMatch carrierId
  cfg.alternativeCarrierPlans.find? (fun plan => plan.id == matchingPlanId)

/-- `billData.phoneLines?.length || 1` (line 426): a missing or empty line
array counts as one line. -/
def numberOfLinesOf (billData : SavingsInput) : ℕ :=
  match billData.phoneLines with
  | some l => if l.length = 0 then 1 else l.length
  | none => 1

/-- `calculateCarrierSavings` (lines 416-459), with the component's
`billData` state and the alternative-carriers config passed explicitly. -/
def calculateCarrierSavings (cfg : CarrierConfig) (carrierId : String)
    (billData : Option SavingsInput) : SavingsQuote :=
  match billData with
  | none =>
      { monthlySavings := some 0, annualSavings := some 0, planName := "N/A", price := 0 }
  | some bd =>
      match resolveCarrierPlan cfg carrierId with
      | none =>
          { monthlySavings := some 0, annualSavings := some 0
            planName := "No matching plan", price := 0 }
      | some carrierPlan =>
          let basePricePerLine : ℚ := 44
          let finalPrice := basePricePerLine * (numberOfLinesOf bd : ℚ)
          let monthlySavings := bd.totalAmount.map (fun t => t - finalPrice)
          { monthlySavings := monthlySavings
            annualSavings := monthlySavings.map (fun m => m * 12)
            planName := carrierPlan.name
            price := finalPrice }

/-- Spec-side per-line "Plan Charges" contribution (§4.3 of the spec):
`planCost − planDiscount`, absent sub-fields treated as 0. -/
def linePlanCharge (line : PhoneLine) : ℚ :=
  match line.details with
  | some d => d.planCost.getD 0 - d.planDiscount.getD 0
  | none => 0

/-- Spec-side per-line "Device Payments" contribution:
`devicePayment − deviceCredit`, absent sub-fields treated as 0. -/
def lineDeviceCharge (line : PhoneLine) : ℚ :=
  match line.details with
  | some d => d.devicePayment.getD 0 - d.deviceCredit.getD 0
  | none => 0

/-- Spec-side per-line "Services & Add-ons" contribution: `protection`,
treated as 0 when absent. -/
def lineServiceCharge (line : PhoneLine) : ℚ :=
  match line.details with
  | some d => d.protection.getD 0
  | none => 0

/-- The category aggregator as the spec describes it (§4.3): per-category
sums over the lines, and "Taxes & Fees" a flat 8% of the summed other
three categories. -/
def specChargesByCategory (phoneLines : List PhoneLine) : ChargeCategories :=
  let p := (phoneLines.map linePlanCharge).sum
  let d := (phoneLines.map lineDeviceCharge).sum
  let s := (phoneLines.map lineServiceCharge).sum
  { planCharges := p
    devicePayments := d
    servicesAddons := s
    taxesFees := 0.08 * (p + d + s) }

/-- Forget the `ownerName` of the first line; used to compare line lists
modulo the owner-name fill of `enhanceBillData`. -/
def eraseOwnerFirst : List PhoneLine → List PhoneLine
  | [] => []
  | x :: xs => { x with ownerName := none } :: xs

/-- Forget the `ocrProvider` field of an analysis; used to compare
normalizer outputs modulo the stored-OCR-provider fallback. -/
def eraseOcrProvider (b : BillAnalysis) : BillAnalysis :=
  { b with ocrProvider := "" }

/-- The empty raw record `{}`. -/
def emptyRaw : RawBillRecord := {}

/-- A raw line whose only populated detail is a plan cost of 100. -/
def planOnlyLine : PhoneLine := { details := some { planCost := some 100 } }

/-- A minimal-format raw record whose legacy category data disagrees with
its phone-line details. -/
def mismatchedRaw : RawBillRecord :=
  { phoneLines := some [planOnlyLine]
    chargesByCategory := some { plans := some 5 } }

/-- Ten raw phone lines, labelled by phone number, first owner name absent. -/
def tenLines : List PhoneLine :=
  [ { phoneNumber := some "L0" }, { phoneNumber := some "L1" },
    { phoneNumber := some "L2" }, { phoneNumber := some "L3" },
    { phoneNumber := some "L4" }, { phoneNumber := some "L5" },
    { phoneNumber := some "L6" }, { phoneNumber := some "L7" },
    { phoneNumber := some "L8" }, { phoneNumber := some "L9" } ]

/-- A minimal-format raw record with ten phone lines and an account
customer name (so the owner-name fill applies to the first line). -/
def tenLineRaw : RawBillRecord :=
  { phoneLines := some tenLines
    accountInfo := some { customerName := some "Alice" } }

/-- A test carrier config whose catalog has exactly the darkstar premium
plan; used to instantiate theorems that are parametric in the config. -/
def testCfg : CarrierConfig :=
  { findBestCarrierMatch := fun _ => ""
    alternativeCarrierPlans := [{ id := "darkstar-premium", name := "Darkstar Premium" }] }

/-- Modelled from the spec: the module `@/config/alternativeCarriers`
(absent from the sources here) supplies `findBestCarrierMatch` and the
static catalog `alternativeCarrierPlans`.  Per §4.2 an unmapped carrier id
is delegated to the fuzzy best-match resolver over the catalog, and per §6
the three offered carriers are verizon/tmobile/att with recommended plans
Warp/Lightspeed/Darkstar. -/
def specCarrierConfig : CarrierConfig :=
  { findBestCarrierMatch := fun carrierId =>
      if carrierId = "verizon" then "warp-premium"
      else if carrierId = "tmobile" then "lightspeed-premium"
      else if carrierId = "att" then "darkstar-premium"
      else ""
    alternativeCarrierPlans :=
      [ { id := "darkstar-premium", name := "Darkstar Premium" },
        { id := "warp-premium", name := "Warp Premium" },
        { id := "lightspeed-premium", name := "Lightspeed Premium" } ] }

/-- An analysis view with an explicitly empty phone-line array. -/
def emptyLinesInput : SavingsInput := { totalAmount := some 100, phoneLines := some [] }

/-- An analysis view with two (blank) phone lines. -/
def twoLineInput : SavingsInput := { totalAmount := some 100, phoneLines := some [{}, {}] }

/-- An analysis view with three (blank) phone lines. -/
def threeLineInput : SavingsInput := { totalAmount := some 200, phoneLines := some [{}, {}, {}] }

/-- An analysis view with no phone-line array at all. -/
def noLinesInput : SavingsInput := { totalAmount := some 100, phoneLines := none }

theorem jsOrQ_zero (x : Option ℚ) : jsOrQ x 0 = x.getD 0 := by
  cases x with
  | none => rfl
  | some q =>
      by_cases h : q = 0 <;> simp [jsOrQ, h]

theorem chargesFold_eq (ls : List PhoneLine) (a b c : ℚ) :
    ls.foldl chargesStep (a, b, c) =
      (a + (ls.map linePlanCharge).sum,
       b + (ls.map lineDeviceCharge).sum,
       c + (ls.map lineServiceCharge).sum) := by
  induction ls generalizing a b c with
  | nil => simp
  | cons x xs ih =>
      cases hx : x.details with
      | none =>
          simp only [List.foldl_cons, chargesStep, hx, ih, List.map_cons, List.sum_cons,
            linePlanCharge, lineDeviceCharge, lineServiceCharge]
          ring_nf
      | some d =>
          simp only [List.foldl_cons, chargesStep, hx, ih, List.map_cons, List.sum_cons,
            linePlanCharge, lineDeviceCharge, lineServiceCharge, jsOrQ_zero]
          refine Prod.ext ?_ (Prod.ext ?_ ?_) <;> dsimp <;> ring

theorem length_mapWithIndex (f : ℕ → α → α) (i : ℕ) (xs : List α) :
    (mapWithIndex f i xs).length = xs.length := by
  induction xs generalizing i with
  | nil => rfl
  | cons x xs ih => simp [mapWithIndex, ih]

theorem mapWithIndex_ownerFill_succ (c : Option String) (k : ℕ) (xs : List PhoneLine) :
    mapWithIndex (ownerFill c) (k + 1) xs = xs := by
  induction xs generalizing k with
  | nil => rfl
  | cons x xs ih =>
      simp [mapWithIndex, ownerFill, ih]

theorem ownerFill_erase (c : Option String) (i : ℕ) (x : PhoneLine) :
    ({ ownerFill c i x with ownerName := none } : PhoneLine)
      = { x with ownerName := none } := by
  unfold ownerFill
  split <;> rfl

theorem jsTruthyStr_jsOrStr (x : Option String) (d : String) (hd : d ≠ "") :
    jsTruthyStr (some (jsOrStr x d)) = true := by
  cases x with
  | none => simp [jsTruthyStr, jsOrStr, hd]
  | some s =>
      by_cases h : s = "" <;> simp [jsTruthyStr, jsOrStr, h, hd]

theorem capAtEight_cons (y : PhoneLine) (ys : List PhoneLine) (h : 7 < ys.length) :
    capAtEight (y :: ys) = y :: ys.take 7 := by
  unfold capAtEight
  rw [if_pos (by simp; omega)]
  rfl

theorem capAtEight_le (l : List PhoneLine) : (capAtEight l).length ≤ 8 := by
  unfold capAtEight
  split
  · rw [List.length_take]
    omega
  · omega

/-- Claim C6 (confirmed): for every `phoneLines` array, including the empty
one, `calculateChargesByCategory` returns "Plan Charges" = Σ(planCost −
planDiscount), "Device Payments" = Σ(devicePayment − deviceCredit),
"Services & Add-ons" = Σ protection (absent sub-fields as 0), and
"Taxes & Fees" = 0.08 × the sum of the other three categories, independent
of the lines' own `taxes` and `surcharges` fields (which do not occur in
the right-hand side). -/
theorem aggregator_matches_spec (phoneLines : List PhoneLine) :
    calculateChargesByCategory phoneLines = specChargesByCategory phoneLines := by
  unfold calculateChargesByCategory specChargesByCategory
  rw [chargesFold_eq]
  simp only [zero_add]
  rw [mul_comm _ (0.08 : ℚ)]

/-- Claim C2, counterexample: for the minimal-format record
`mismatchedRaw` (one line with plan cost 100, legacy category value
`plans = 5`) the normalized `chargesByCategory` is NOT the per-line sum
required by the claim — the normalizer copies the legacy value 5 instead
of recomputing 100 from the lines. -/
theorem chargesByCategory_not_recomputed_cex :
    ¬ ((enhanceBillData mismatchedRaw none).chargesByCategory
        = some (specChargesByCategory (enhanceBillData mismatchedRaw none).phoneLines)) := by
  intro h
  have h1 : (enhanceBillData mismatchedRaw none).chargesByCategory
      = some (mapLegacyCharges { plans := some 5 }) := by decide
  have h2 : (enhanceBillData mismatchedRaw none).phoneLines = [planOnlyLine] := by decide
  rw [h1, h2] at h
  have h3 := congrArg (fun o => (o.map ChargeCategories.planCharges).getD 0) h
  simp [mapLegacyCharges, specChargesByCategory, linePlanCharge, planOnlyLine, jsOrQ] at h3

/-- Claim C2 (corrected): the normalizer never recomputes
`chargesByCategory` from `phoneLines`; it copies the legacy-keyed raw
values (each defaulted to 0) whenever raw category data is present, and
otherwise produces the all-zero map in the enhanced branch and leaves the
field absent in the minimal branch. -/
theorem chargesByCategory_passthrough (rawData : RawBillRecord) (ocrState : Option String) :
    (enhanceBillData rawData ocrState).chargesByCategory
      = match rawData.chargesByCategory with
        | some rc => some (mapLegacyCharges rc)
        | none => if isEnhancedFormat rawData then some zeroCharges else none := by
  by_cases h : isEnhancedFormat rawData <;>
    cases hc : rawData.chargesByCategory <;>
      simp [enhanceBillData, h, enhancedFormatResult, minimalFormatResult, hc]

/-- Claim C3, counterexample: for `tenLineRaw` (ten lines, the first
without an owner name, and an account customer name "Alice") the
normalized output is NOT exactly the first 8 raw lines: the first line's
`ownerName` has been filled in. -/
theorem phoneLines_cap_cex :
    ¬ ((enhanceBillData tenLineRaw none).phoneLines
        = (tenLineRaw.phoneLines.getD []).take 8) := by
  decide

/-- Claim C3 (corrected): the normalized `phoneLines` length is always at
most 8; when the raw record carries more than 8 lines the output is
exactly the first 8 in their original order, except that the first line's
`ownerName` may have been filled in from `accountInfo.customerName`
(captured by comparing modulo `eraseOwnerFirst`). -/
theorem phoneLines_cap :
    (∀ (rawData : RawBillRecord) (ocrState : Option String),
        (enhanceBillData rawData ocrState).phoneLines.length ≤ 8) ∧
      ∀ (rawData : RawBillRecord) (ocrState : Option String) (l : List PhoneLine),
        rawData.phoneLines = some l → 8 < l.length →
          (enhanceBillData rawData ocrState).phoneLines.length = 8 ∧
            eraseOwnerFirst (enhanceBillData rawData ocrState).phoneLines
              = eraseOwnerFirst (l.take 8) := by
  constructor
  · intro rawData ocrState
    by_cases h : isEnhancedFormat rawData
    · simp only [enhanceBillData, h, if_true, enhancedFormatResult]
      exact capAtEight_le _
    · simp only [enhanceBillData, h, if_false, Bool.false_eq_true, minimalFormatResult]
      exact capAtEight_le _
  intro rawData ocrState l hl h8
  have hlen0 : l.length ≠ 0 := by omega
  by_cases he : isEnhancedFormat rawData
  · have hout : (enhanceBillData rawData ocrState).phoneLines = l.take 8 := by
      simp [enhanceBillData, he, enhancedFormatResult, hl, capAtEight, h8]
    rw [hout]
    refine ⟨?_, rfl⟩
    rw [List.length_take]
    omega
  · cases l with
    | nil => simp at h8
    | cons x xs =>
        have hxs7 : 7 < xs.length := by
          simp only [List.length_cons] at h8
          omega
        set c := rawData.accountInfo.bind AccountInfo.customerName with hc
        have hlines : (enhanceBillData rawData ocrState).phoneLines
            = capAtEight (if jsTruthyStr c then ownerFill c 0 x :: xs else x :: xs) := by
          simp only [enhanceBillData, he, if_neg, minimalFormatResult, hl, hlen0, if_false,
            Bool.if_false_right]
          by_cases ht : jsTruthyStr c
          · simp [ht, mapWithIndex, mapWithIndex_ownerFill_succ, length_mapWithIndex, hlen0,
              ← hc]
          · simp [ht, hlen0, ← hc]
        have htake : List.take 8 (x :: xs) = x :: List.take 7 xs := rfl
        by_cases ht : jsTruthyStr c
        · rw [hlines, if_pos ht, capAtEight_cons _ _ hxs7]
          constructor
          · simp only [List.length_cons, List.length_take]
            omega
          · rw [htake]
            simp only [eraseOwnerFirst, ownerFill_erase]
        · rw [hlines, if_neg ht, capAtEight_cons _ _ hxs7]
          constructor
          · simp only [List.length_cons, List.length_take]
            omega
          · rw [htake]

/-- Witness for `phoneLines_cap` at the ten-line record. -/
theorem phoneLines_cap_witness :
    tenLineRaw.phoneLines = some tenLines ∧ 8 < tenLines.length ∧
      ((enhanceBillData tenLineRaw none).phoneLines.length = 8 ∧
        eraseOwnerFirst (enhanceBillData tenLineRaw none).phoneLines
          = eraseOwnerFirst (tenLines.take 8)) :=
  ⟨rfl, by decide, phoneLines_cap.2 tenLineRaw none tenLines rfl (by decide)⟩

/-- Claim C5, counterexample: for the empty raw record (zero phone lines,
no enhanced marker) the normalized output does NOT contain the two canned
"iPhone 15"/"iPhone 14" lines — it contains a single "Smartphone"
placeholder. -/
theorem placeholder_lines_cex :
    ¬ ((enhanceBillData emptyRaw none).phoneLines.map PhoneLine.deviceName
        = [some "iPhone 15", some "iPhone 14"]) := by
  decide

/-- Claim C5 (corrected): for every raw record with zero phone lines
(absent or empty array) the normalized output contains exactly one
placeholder line, with device name "Smartphone"; the canned iPhone 15/14
example lines are unreachable for such inputs because the placeholder is
inserted first. -/
theorem placeholder_single_line (rawData : RawBillRecord) (ocrState : Option String)
    (hl : rawData.phoneLines = none ∨ rawData.phoneLines = some []) :
    (enhanceBillData rawData ocrState).phoneLines = [placeholderLine rawData] ∧
      (placeholderLine rawData).deviceName = some "Smartphone" := by
  have he : isEnhancedFormat rawData = false := by
    rcases hl with h | h <;> simp [isEnhancedFormat, h]
  have howner : jsTruthyStr (placeholderLine rawData).ownerName = true := by
    exact jsTruthyStr_jsOrStr _ _ (by decide)
  refine ⟨?_, rfl⟩
  have hlines0 :
      (match rawData.phoneLines with
        | none => [placeholderLine rawData]
        | some l => if l.length = 0 then [placeholderLine rawData] else l)
        = [placeholderLine rawData] := by
    rcases hl with h | h <;> rw [h]
    rfl
  simp only [enhanceBillData, he, Bool.false_eq_true, if_false, minimalFormatResult, hlines0]
  by_cases ht : jsTruthyStr (rawData.accountInfo.bind AccountInfo.customerName)
  · simp [ht, mapWithIndex, ownerFill, howner, capAtEight]
  · simp [ht, capAtEight]

/-- Witness for `placeholder_single_line` at the empty raw record. -/
theorem placeholder_single_line_witness :
    (emptyRaw.phoneLines = none ∨ emptyRaw.phoneLines = some []) ∧
      ((enhanceBillData emptyRaw none).phoneLines = [placeholderLine emptyRaw] ∧
        (placeholderLine emptyRaw).deviceName = some "Smartphone") :=
  ⟨Or.inl rfl, placeholder_single_line emptyRaw none (Or.inl rfl)⟩

/-- Claim C4 (code bug), evaluation at the failing input: on the empty raw
record the normalizer leaves `totalAmount`, `accountNumber` and
`chargesByCategory` undefined, and the default recommendation's
alternative-plan `monthlyCost` — computed as `rawData.totalAmount * 0.9`
with no `|| 0` fallback — is `NaN` (modelled as `none`), contradicting the
documented "no `undefined` fields, defaults before arithmetic, no NaN"
policy. -/
theorem normalizer_undefined_fields_bug :
    (enhanceBillData emptyRaw none).totalAmount = none ∧
      (enhanceBillData emptyRaw none).accountNumber = none ∧
      (enhanceBillData emptyRaw none).chargesByCategory = none ∧
      (enhanceBillData emptyRaw none).planRecommendation.alternativePlans.map
        AlternativePlan.monthlyCost = [none] := by
  refine ⟨by decide, by decide, by decide, by decide⟩

/-- Claim C9, counterexample: two normalization calls on the identical raw
record but under different stored `ocrProvider` component state (as set by
a prior upload) produce different outputs — the claimed statelessness
fails. -/
theorem normalization_reads_ocr_state_cex :
    enhanceBillData emptyRaw none ≠ enhanceBillData emptyRaw (some "claude") := by
  intro h
  have h2 := congrArg BillAnalysis.ocrProvider h
  have e1 : (enhanceBillData emptyRaw none).ocrProvider = "standard" := by decide
  have e2 : (enhanceBillData emptyRaw (some "claude")).ocrProvider = "claude" := by decide
  rw [e1, e2] at h2
  exact absurd h2 (by decide)

/-- Claim C9 (corrected): normalization is a pure function of the raw
record and the stored `ocrProvider` state, and that state influences only
the output's `ocrProvider` field — stripping it, the output is determined
by the raw record alone. -/
theorem normalization_state_independent_mod_ocr (rawData : RawBillRecord)
    (s1 s2 : Option String) :
    eraseOcrProvider (enhanceBillData rawData s1)
      = eraseOcrProvider (enhanceBillData rawData s2) := by
  by_cases h : isEnhancedFormat rawData <;>
    simp [enhanceBillData, h, enhancedFormatResult, minimalFormatResult, eraseOcrProvider]

/-- Claim C8 (confirmed): for every carrier id (and any carrier config),
`calculateCarrierSavings` with no analysis present returns exactly the
zero/"N/A" quote. -/
theorem null_analysis_quote (cfg : CarrierConfig) (carrierId : String) :
    calculateCarrierSavings cfg carrierId none
      = { monthlySavings := some 0, annualSavings := some 0, planName := "N/A", price := 0 } :=
  rfl

/-- Claim C1, counterexample: with a resolvable plan and an analysis whose
`phoneLines` is the empty array, the returned price is 44, not
44 × phoneLines.length = 0 — the claim's "numberOfLines is the analysis's
phoneLines length" fails on empty line arrays. -/
theorem carrierSavings_linear_pricing_cex :
    ¬ ((calculateCarrierSavings testCfg "darkstar" (some emptyLinesInput)).price
        = 44 * ((emptyLinesInput.phoneLines.getD []).length : ℚ)) := by
  have h : (calculateCarrierSavings testCfg "darkstar" (some emptyLinesInput)).price
      = 44 * ((1 : ℕ) : ℚ) := rfl
  rw [h]
  norm_num [emptyLinesInput]

/-- Claim C1 (corrected): for every analysis with a resolvable carrier
plan, the quote has price = 44 × numberOfLines where numberOfLines is the
phoneLines length coalesced to 1 when the array is empty or missing,
monthlySavings = totalAmount − price (negative values returned as-is, and
`none` exactly when `totalAmount` is absent), and annualSavings =
monthlySavings × 12. -/
theorem carrierSavings_linear_pricing (cfg : CarrierConfig) (carrierId : String)
    (bd : SavingsInput) (plan : CarrierPlan)
    (hres : resolveCarrierPlan cfg carrierId = some plan) :
    (calculateCarrierSavings cfg carrierId (some bd)).price
        = 44 * (numberOfLinesOf bd : ℚ) ∧
      (calculateCarrierSavings cfg carrierId (some bd)).monthlySavings
        = bd.totalAmount.map (fun t => t - 44 * (numberOfLinesOf bd : ℚ)) ∧
      (calculateCarrierSavings cfg carrierId (some bd)).annualSavings
        = (bd.totalAmount.map (fun t => t - 44 * (numberOfLinesOf bd : ℚ))).map
            (fun m => m * 12) := by
  simp [calculateCarrierSavings, hres]

/-- Witness for `carrierSavings_linear_pricing` at a two-line analysis and
the test config. -/
theorem carrierSavings_linear_pricing_witness :
    resolveCarrierPlan testCfg "darkstar"
        = some { id := "darkstar-premium", name := "Darkstar Premium" } ∧
      ((calculateCarrierSavings testCfg "darkstar" (some twoLineInput)).price
          = 44 * (numberOfLinesOf twoLineInput : ℚ) ∧
        (calculateCarrierSavings testCfg "darkstar" (some twoLineInput)).monthlySavings
          = twoLineInput.totalAmount.map
              (fun t => t - 44 * (numberOfLinesOf twoLineInput : ℚ)) ∧
        (calculateCarrierSavings testCfg "darkstar" (some twoLineInput)).annualSavings
          = (twoLineInput.totalAmount.map
              (fun t => t - 44 * (numberOfLinesOf twoLineInput : ℚ))).map
                (fun m => m * 12)) :=
  ⟨rfl, carrierSavings_linear_pricing testCfg "darkstar" twoLineInput _ rfl⟩

/-- Claim C10 (confirmed): when the analysis's `phoneLines` is empty or
missing and a carrier plan resolves, the number of lines is coalesced to
1, so price = 44 (not 0) and monthlySavings = totalAmount − 44. -/
theorem empty_lines_coalesced_to_one (cfg : CarrierConfig) (carrierId : String)
    (bd : SavingsInput) (plan : CarrierPlan)
    (hres : resolveCarrierPlan cfg carrierId = some plan)
    (hempty : bd.phoneLines = none ∨ bd.phoneLines = some []) :
    (calculateCarrierSavings cfg carrierId (some bd)).price = 44 ∧
      (calculateCarrierSavings cfg carrierId (some bd)).monthlySavings
        = bd.totalAmount.map (fun t => t - 44) := by
  have hn : numberOfLinesOf bd = 1 := by
    rcases hempty with h | h <;> simp [numberOfLinesOf, h]
  simp [calculateCarrierSavings, hres, hn]

/-- Witness for `empty_lines_coalesced_to_one` at an analysis without a
phone-line array. -/
theorem empty_lines_coalesced_to_one_witness :
    resolveCarrierPlan testCfg "darkstar"
        = some { id := "darkstar-premium", name := "Darkstar Premium" } ∧
      (noLinesInput.phoneLines = none ∨ noLinesInput.phoneLines = some []) ∧
      ((calculateCarrierSavings testCfg "darkstar" (some noLinesInput)).price = 44 ∧
        (calculateCarrierSavings testCfg "darkstar" (some noLinesInput)).monthlySavings
          = noLinesInput.totalAmount.map (fun t => t - 44)) :=
  ⟨rfl, Or.inl rfl,
    empty_lines_coalesced_to_one testCfg "darkstar" noLinesInput _ rfl (Or.inl rfl)⟩

/-- Claim C7 (confirmed against the spec-modelled carrier catalog): for
every analysis with three phone lines, `calculateCarrierSavings` for
"verizon" returns price = 132 = 44 × 3 and monthlySavings =
totalAmount − 132. -/
theorem verizon_three_lines_quote (bd : SavingsInput) (l : List PhoneLine)
    (hl : bd.phoneLines = some l) (h3 : l.length = 3) :
    (calculateCarrierSavings specCarrierConfig "verizon" (some bd)).price = 132 ∧
      (calculateCarrierSavings specCarrierConfig "verizon" (some bd)).monthlySavings
        = bd.totalAmount.map (fun t => t - 132) := by
  have hres : resolveCarrierPlan specCarrierConfig "verizon"
      = some { id := "warp-premium", name := "Warp Premium" } := rfl
  have hn : numberOfLinesOf bd = 3 := by
    simp [numberOfLinesOf, hl, h3]
  simp [calculateCarrierSavings, hres, hn]
  norm_num

/-- Witness for `verizon_three_lines_quote` at a three-line analysis with
total 200. -/
theorem verizon_three_lines_quote_witness :
    threeLineInput.phoneLines = some [{}, {}, {}] ∧ ([({} : PhoneLine), {}, {}]).length = 3 ∧
      ((calculateCarrierSavings specCarrierConfig "verizon" (some threeLineInput)).price = 132 ∧
        (calculateCarrierSavings specCarrierConfig "verizon" (some threeLineInput)).monthlySavings
          = threeLineInput.totalAmount.map (fun t => t - 132)) :=
  ⟨rfl, rfl, verizon_three_lines_quote threeLineInput [{}, {}, {}] rfl rfl⟩
